import Mathlib

/-
Verification of the EFS volume directory lifecycle engine
(efs-provisioner.go, filesystemreclaimer.go, volume metadata store).

The Go code is embedded shallowly.  Filesystem and allocator effects are
abstracted into an operations record `FSOps σ` over an arbitrary state
type `σ`; the engine's functions (`volumeExists`, `readVolumeMetadata`,
`writeVolumeMetadata`, `createVolume`, `Provision`, `Delete`, `Reclaim`)
are translated statement by statement against that interface.  Two
instantiations are provided: `traceOps`, which records every operation
invoked together with oracle-chosen results (used to reason about which
effects a run performs), and `pathStateOps`, a concrete semantics of the
single target path (used to reason about what happens to a preexisting
directory).
-/

namespace EfsProv

/-! ## Go standard-library primitives (strconv, strings, path) -/

/-- Decimal digit run parser: `some n` iff the character list is nonempty
and all characters are ASCII digits; mirrors the digit loop of Go's
`strconv.ParseUint`/`ParseInt` in base 10. -/
def decDigits? (cs : List Char) : Option Nat :=
  if cs ≠ [] ∧ cs.all Char.isDigit then
    some (cs.foldl (fun a c => a * 10 + (c.toNat - 48)) 0)
  else none

/-- Digit-emission loop of Go's `strconv.Itoa`, with explicit fuel (the
fuel is strictly more than the value, which bounds the digit count). -/
def natToDecAux : Nat → Nat → List Char
  | 0, _ => []
  | fuel + 1, n =>
    if n < 10 then [Char.ofNat (48 + n)]
    else natToDecAux fuel (n / 10) ++ [Char.ofNat (48 + n % 10)]

/-- Decimal digit characters of `n`, most significant first. -/
def natToDec (n : Nat) : List Char :=
  natToDecAux (n + 1) n

/-- Go `strconv.Itoa`. -/
def itoa (i : Int) : String :=
  if i < 0 then "-" ++ String.mk (natToDec (-i).toNat)
  else String.mk (natToDec i.toNat)

/-- Go `strconv.Atoi` (= `ParseInt(s, 10, 64)`): optional sign, decimal
digits, 64-bit signed range; `none` on any parse or range error. -/
def goAtoi (s : String) : Option Int :=
  match s.toList with
  | [] => none
  | c :: rest =>
    if c = '+' then
      (decDigits? rest).bind (fun n => if n ≤ 2 ^ 63 - 1 then some (n : Int) else none)
    else if c = '-' then
      (decDigits? rest).bind (fun n => if n ≤ 2 ^ 63 then some (-(n : Int)) else none)
    else
      (decDigits? (c :: rest)).bind (fun n => if n ≤ 2 ^ 63 - 1 then some (n : Int) else none)

/-- Go `strconv.ParseUint(s, 10, 32)`: decimal digits only (no sign),
must fit in 32 bits; `none` on any parse or range error. -/
def parseUint32 (s : String) : Option Nat :=
  (decDigits? s.toList).bind (fun n => if n < 2 ^ 32 then some n else none)

/-- Go `strconv.ParseBool`. -/
def goParseBool (s : String) : Option Bool :=
  if s = "1" ∨ s = "t" ∨ s = "T" ∨ s = "true" ∨ s = "TRUE" ∨ s = "True" then some true
  else if s = "0" ∨ s = "f" ∨ s = "F" ∨ s = "false" ∨ s = "FALSE" ∨ s = "False" then some false
  else none

/-- Helper for `replaceFirst`: replace the first occurrence of `old`
(nonempty) by `new` in a character list. -/
def replaceFirstAux (old new : List Char) : List Char → List Char
  | [] => []
  | c :: rest =>
    if old.isPrefixOf (c :: rest) then new ++ (c :: rest).drop old.length
    else c :: replaceFirstAux old new rest

/-- Go `strings.Replace(s, old, new, 1)`. -/
def replaceFirst (s old new : String) : String :=
  if old = "" then new ++ s
  else String.mk (replaceFirstAux old.toList new.toList s.toList)

/-- Go `strings.HasPrefix`. -/
def goHasPrefix (s pre : String) : Bool :=
  pre.toList.isPrefixOf s.toList

/-- ASCII lower-casing of one character (what Go `strings.ToLower` does
on the ASCII parameter keys the engine inspects). -/
def charToLower (c : Char) : Char :=
  if 'A' ≤ c ∧ c ≤ 'Z' then Char.ofNat (c.toNat + 32) else c

/-- ASCII `strings.ToLower`. -/
def goToLower (s : String) : String :=
  String.mk (s.toList.map charToLower)

/-- Split a character list at every slash (the component decomposition
underlying `path.Clean`). -/
def splitOnSlash : List Char → List (List Char)
  | [] => [[]]
  | c :: rest =>
    if c = '/' then [] :: splitOnSlash rest
    else
      match splitOnSlash rest with
      | [] => [[c]]
      | grp :: grps => (c :: grp) :: grps

/-- Join path components with single slashes. -/
def joinSlash : List String → String
  | [] => ""
  | [x] => x
  | x :: xs => x ++ "/" ++ joinSlash xs

/-- Go `path.Clean` (slash-separated lexical path cleaning): collapse
multiple slashes, drop `.` elements, resolve `..` against a preceding
element, drop `..` at a rooted path's root; empty result becomes `.`
(or `/` when rooted). -/
def goClean (p : String) : String :=
  if p = "" then "."
  else
    let rooted := goHasPrefix p "/"
    let comps := ((splitOnSlash p.toList).map String.mk).filter (fun c => c ≠ "" ∧ c ≠ ".")
    let outRev := comps.foldl
      (fun acc c =>
        if c = ".." then
          match acc with
          | [] => if rooted then [] else [c]
          | prev :: rest => if prev = ".." then c :: acc else rest
        else c :: acc)
      ([] : List String)
    let joined := joinSlash outRev.reverse
    if rooted then (if joined = "" then "/" else "/" ++ joined)
    else (if joined = "" then "." else joined)

/-- Go `path.Join` on two elements: empty elements are dropped, the rest
joined with a slash and cleaned; all-empty input yields the empty string. -/
def goJoin2 (a b : String) : String :=
  if a = "" ∧ b = "" then ""
  else if a = "" then goClean b
  else if b = "" then goClean a
  else goClean (a ++ "/" ++ b)

/-! ## Data model: ownership metadata sidecar -/

/-- Fixed name of the per-directory metadata sidecar file. -/
def metadataFile : String := ".kube-efs-provisioner-metadata"

/-- The ownership metadata record stored inside a reuse-mode directory
(struct `volumeMetadata`). -/
structure VolumeMetadata where
  GID : String
  PVCName : String
  PVCNamespace : String
  StorageClassName : String
  deriving DecidableEq, Repr

/-- Method `volumeMetadata.GidAsUInt`: `strconv.ParseUint(GID, 10, 32)`;
`none` is the error case. -/
def gidAsUInt (md : VolumeMetadata) : Option Nat :=
  parseUint32 md.GID

/-- `getMetaDataPath`: `path.Join(dir, metadataFile)`. -/
def getMetaDataPath (dir : String) : String :=
  goJoin2 dir metadataFile

/-! ## Abstract filesystem / allocator interface -/

/-- Result of `os.Stat` as consumed by `volumeExists`: the path may not
exist, stat may fail otherwise, or it reports whether the path is a
directory and its on-disk group-owner id (a uint32). -/
inductive StatResult where
  | notExist
  | statError (e : String)
  | found (isDir : Bool) (gid : Nat)
  deriving DecidableEq, Repr

/-- Result of `ioutil.ReadFile` as consumed by `readVolumeMetadata`. -/
inductive ReadFileResult where
  | notExist
  | readError (e : String)
  | content (s : String)
  deriving DecidableEq, Repr

/-- An entry returned by `ioutil.ReadDir`. -/
structure DirEntry where
  name : String
  isDir : Bool
  deriving DecidableEq, Repr

/-- The effectful operations the engine performs, over an abstract state
`σ`: filesystem calls, the external `chgrp` command, and the injected GID
allocator capability (`AllocateNext`/`Release`).  `unmarshal`/`marshal`
abstract the JSON codec for the metadata record. -/
structure FSOps (σ : Type) where
  stat : String → σ → σ × StatResult
  readFile : String → σ → σ × ReadFileResult
  writeFile : String → String → Nat → σ → σ × Except String Unit
  mkdirAll : String → Nat → σ → σ × Except String Unit
  chmod : String → Nat → σ → σ × Except String Unit
  chgrp : Int → String → σ → σ × Except String Unit
  removeAll : String → σ → σ × Except String Unit
  readDir : String → σ → σ × Except String (List DirEntry)
  allocateNext : σ → σ × Except String Int
  release : σ → σ × Except String Unit
  unmarshal : String → Option VolumeMetadata
  marshal : VolumeMetadata → Except String String

/-! ## Metadata store and existence check -/

/-- `volumeExists`: stat the path; not-exist is `(false, 0)` without
error, a non-directory is an error, a directory yields `(true, gid)`. -/
def volumeExists {σ : Type} (ops : FSOps σ) (path : String) (s : σ) :
    σ × Except String (Bool × Nat) :=
  match ops.stat path s with
  | (s, .notExist) => (s, .ok (false, 0))
  | (s, .statError e) => (s, .error e)
  | (s, .found isDir gid) =>
    if !isDir then (s, .error (path ++ " already exists but is a file"))
    else (s, .ok (true, gid))

/-- `readVolumeMetadata`: read the sidecar file; an absent file is
`none` without error, any other read failure or an unparsable file is
an error. -/
def readVolumeMetadata {σ : Type} (ops : FSOps σ) (dir : String) (s : σ) :
    σ × Except String (Option VolumeMetadata) :=
  match ops.readFile (getMetaDataPath dir) s with
  | (s, .notExist) => (s, .ok none)
  | (s, .readError e) => (s, .error e)
  | (s, .content c) =>
    match ops.unmarshal c with
    | none => (s, .error ("failed to unmarshal " ++ getMetaDataPath dir))
    | some md => (s, .ok (some md))

/-- `writeVolumeMetadata`: serialize the record and write it to the
sidecar path with mode 0600; serialization or write failure is returned
as an error. -/
def writeVolumeMetadata {σ : Type} (ops : FSOps σ) (dir : String)
    (md : VolumeMetadata) (s : σ) : σ × Except String Unit :=
  match ops.marshal md with
  | .error e => (s, .error e)
  | .ok contents => ops.writeFile (getMetaDataPath dir) contents 0o600 s

/-! ## Provisioner configuration, request, and result types -/

/-- The provisioner instance state (`efsProvisioner` fields other than
the allocator, which lives behind `FSOps`). -/
structure EfsConfig where
  dnsName : String
  mountpoint : String
  source : String
  deriving DecidableEq, Repr

/-- The provisioning request (`controller.VolumeOptions`), restricted to
the fields the engine reads.  `pvcClass` stands for
`helper.GetPersistentVolumeClaimClass(options.PVC)` (an external helper
that projects the claim's storage class). -/
structure VolumeOptions where
  pvName : String
  pvcName : String
  pvcNamespace : String
  pvcClass : String
  hasSelector : Bool
  parameters : List (String × String)
  mountOptions : Option (List String)
  deriving DecidableEq, Repr

/-- The published volume descriptor, restricted to the fields the engine
computes (NFS server/path, mount options, optional GID annotation). -/
structure PersistentVolume where
  name : String
  server : String
  path : String
  readOnly : Bool
  mountOptions : List String
  gidAnnotation : Option Int
  deriving DecidableEq, Repr

/-- Lookup of a key in the request's parameter map. -/
def lookupParam (params : List (String × String)) (k : String) : Option String :=
  (params.find? (fun kv => kv.1 = k)).map (fun kv => kv.2)

/-- `reuseVolumesOption`: parse the `reuseVolumes` parameter as a bool;
absent means `false`; an unparsable value is an error. -/
def reuseVolumesOption (options : VolumeOptions) : Except String Bool :=
  match lookupParam options.parameters "reuseVolumes" with
  | some reuseStr =>
    match goParseBool reuseStr with
    | none => .error ("invalid value " ++ reuseStr ++ " for parameter reuseVolumes")
    | some b => .ok b
  | none => .ok false

/-- `getDirectoryName`: in reuse mode the name is deterministic from the
claim (optional prefix, claim name, claim namespace); otherwise it is
claim name plus the generated PV name. -/
def getDirectoryName (options : VolumeOptions) : Except String String :=
  match reuseVolumesOption options with
  | .error e => .error e
  | .ok reuseVolumes =>
    if reuseVolumes then
      let pfxStr :=
        match lookupParam options.parameters "volumePrefix" with
        | some pfx => if pfx ≠ "" then pfx ++ "-" else ""
        | none => ""
      .ok (pfxStr ++ options.pvcName ++ "-" ++ options.pvcNamespace)
    else
      .ok (options.pvcName ++ "-" ++ options.pvName)

/-- `getLocalPath`: mount point joined with the directory name. -/
def getLocalPath (p : EfsConfig) (options : VolumeOptions) : Except String String :=
  match getDirectoryName options with
  | .error e => .error e
  | .ok dirname => .ok (goJoin2 p.mountpoint dirname)

/-- `getRemotePath`: the mount source with the `server:` prefix stripped
and cleaned, joined with the directory name. -/
def getRemotePath (p : EfsConfig) (options : VolumeOptions) : Except String String :=
  match getDirectoryName options with
  | .error e => .error e
  | .ok dirname =>
    let sourcePath := goClean (replaceFirst p.source (p.dnsName ++ ":") "")
    .ok (goJoin2 sourcePath dirname)

/-- The parameter-scanning loop of `Provision`: `gidMin`/`gidMax` keys
are left to the allocator, a `gidAllocate` key (case-insensitive) is
parsed as a bool (parse failure is an error); default is `true`. -/
def paramGidAllocate (params : List (String × String)) : Except String Bool :=
  params.foldlM
    (fun acc kv =>
      if goToLower kv.1 = "gidallocate" then
        match goParseBool kv.2 with
        | none => Except.error ("invalid value " ++ kv.2 ++ " for parameter " ++ kv.1)
        | some b => Except.ok b
      else Except.ok acc)
    true

/-- Go `os.ModeSetgid`. -/
def modeSetgid : Nat := 2 ^ 22

/-- `createVolume`: mkdir with 0777 (no GID) or 0771+setgid (with GID),
re-chmod against the umask, then chgrp; a chmod or chgrp failure removes
the just-created tree (its own error ignored) and returns the error. -/
def createVolume {σ : Type} (ops : FSOps σ) (path : String) (gid : Option Int)
    (s : σ) : σ × Except String Unit :=
  let perm := if gid.isSome then 0o771 ||| modeSetgid else 0o777
  match ops.mkdirAll path perm s with
  | (s, .error e) => (s, .error e)
  | (s, .ok _) =>
    match ops.chmod path perm s with
    | (s, .error e) =>
      let q := ops.removeAll path s
      (q.1, .error e)
    | (s, .ok _) =>
      match gid with
      | none => (s, .ok ())
      | some g =>
        match ops.chgrp g path s with
        | (s, .error e) =>
          let q := ops.removeAll path s
          (q.1, .error ("chgrp failed with error: " ++ e))
        | (s, .ok _) => (s, .ok ())

/-- `validatePreexistingVolume`: missing metadata, a different storage
class, or a different claim name/namespace is an error; if the metadata
records a GID, it must equal the directory's actual group id (the
metadata GID is parsed with `GidAsUInt` and its parse error is ignored,
leaving 0). -/
def validatePreexistingVolume (options : VolumeOptions)
    (md? : Option VolumeMetadata) (volumePath : String) (existingGID : Nat) :
    Except String Unit :=
  match md? with
  | none => .error (volumePath ++ " already exists but has no volume metadata")
  | some md =>
    if md.StorageClassName ≠ options.pvcClass then
      .error (volumePath ++ " already exists but was created for storage class " ++
        md.StorageClassName ++ " instead of " ++ options.pvcClass)
    else if md.PVCName ≠ options.pvcName ∨ md.PVCNamespace ≠ options.pvcNamespace then
      .error (volumePath ++ " already exists but was created for " ++
        md.PVCNamespace ++ "/" ++ md.PVCName ++ " instead of " ++
        options.pvcNamespace ++ "/" ++ options.pvcName)
    else if md.GID ≠ "" then
      let mdgid := (gidAsUInt md).getD 0
      if existingGID ≠ mdgid then
        .error (volumePath ++ " already exists, but its gid is " ++ itoa existingGID ++
          " while the volume metadata says the gid should be " ++ itoa mdgid)
      else .ok ()
    else .ok ()

/-- `Provision`: reject selectors; compute the local path; in reuse mode
stat the target and, when it exists, validate its metadata and reuse its
GID; otherwise optionally allocate a GID and create the directory,
persisting metadata in reuse mode (the metadata write's result is
discarded, as in the source); finally publish the descriptor with the
remote path and optional GID annotation. -/
def Provision {σ : Type} (ops : FSOps σ) (p : EfsConfig)
    (options : VolumeOptions) (s : σ) : σ × Except String PersistentVolume :=
  if options.hasSelector then (s, .error "claim.Spec.Selector is not supported")
  else
    match getLocalPath p options with
    | .error e => (s, .error e)
    | .ok volumePath =>
      match reuseVolumesOption options with
      | .error e => (s, .error e)
      | .ok reuseVolumes =>
        match (if reuseVolumes then volumeExists ops volumePath s else (s, .ok (false, 0))) with
        | (s, .error e) => (s, .error e)
        | (s, .ok (volExists, existingGid)) =>
          let afterBranch : σ × Except String (Option Int) :=
            if volExists then
              match readVolumeMetadata ops volumePath s with
              | (s, .error e) =>
                (s, .error ("failed to read volume metadata for " ++ volumePath ++ ": " ++ e))
              | (s, .ok md?) =>
                match validatePreexistingVolume options md? volumePath existingGid with
                | .error e => (s, .error e)
                | .ok _ =>
                  match md? with
                  | none =>
                    -- unreachable: validatePreexistingVolume rejects missing metadata
                    (s, .error (volumePath ++ " already exists but has no volume metadata"))
                  | some md =>
                    if md.GID ≠ "" then
                      let existingGidInt : Int := (existingGid : Int)
                      match goAtoi md.GID with
                      | none =>
                        (s, .error ("volume metadata contains an invalid GID value: " ++ md.GID))
                      | some mdGidInt =>
                        if existingGidInt = mdGidInt then (s, .ok (some existingGidInt))
                        else
                          (s, .error ("directory " ++ volumePath ++ " has a GID of " ++
                            itoa existingGidInt ++
                            ", but the volume metadata shows the GID as " ++ md.GID))
                    else (s, .ok none)
            else
              match paramGidAllocate options.parameters with
              | .error e => (s, .error e)
              | .ok gidAllocate =>
                let allocRes : σ × Except String (Option Int) :=
                  if gidAllocate then
                    match ops.allocateNext s with
                    | (s, .error e) => (s, .error e)
                    | (s, .ok allocate) => (s, .ok (some allocate))
                  else (s, .ok none)
                match allocRes with
                | (s, .error e) => (s, .error e)
                | (s, .ok gid) =>
                  match createVolume ops volumePath gid s with
                  | (s, .error e) => (s, .error e)
                  | (s, .ok _) =>
                    if reuseVolumes then
                      let gidstr := match gid with
                        | some g => itoa g
                        | none => ""
                      -- the source discards writeVolumeMetadata's error
                      let written := writeVolumeMetadata ops volumePath
                        { GID := gidstr
                          PVCName := options.pvcName
                          PVCNamespace := options.pvcNamespace
                          StorageClassName := options.pvcClass } s
                      (written.1, .ok gid)
                    else (s, .ok gid)
          match afterBranch with
          | (s, .error e) => (s, .error e)
          | (s, .ok gid) =>
            let mountOptions := match options.mountOptions with
              | some mo => mo
              | none => ["vers=4.1"]
            match getRemotePath p options with
            | .error e => (s, .error e)
            | .ok remotePath =>
              (s, .ok
                { name := options.pvName
                  server := p.dnsName
                  path := remotePath
                  readOnly := false
                  mountOptions := mountOptions
                  gidAnnotation := gid })

/-- The volume descriptor fields consulted at deletion time
(`v1.NFSVolumeSource`). -/
structure NFSSource where
  server : String
  path : String
  deriving DecidableEq, Repr

/-- `getLocalPathToDelete`: reject a descriptor whose server is not this
instance's, or whose remote path does not start with the exported root
(`strings.HasPrefix`); otherwise substitute the exported root by the
mount point. -/
def getLocalPathToDelete (p : EfsConfig) (nfs : NFSSource) : Except String String :=
  if nfs.server ≠ p.dnsName then
    .error ("volume NFS server " ++ nfs.server ++
      " is not equal to the server " ++ p.dnsName ++
      " from which this provisioner creates volumes")
  else
    let sourcePath := goClean (replaceFirst p.source (p.dnsName ++ ":") "")
    if ¬ goHasPrefix nfs.path sourcePath then
      .error ("volume NFS path " ++ nfs.path ++
        " is not a child of the server path " ++ p.source ++
        " mounted in this provisioner at " ++ p.mountpoint)
    else
      .ok (goJoin2 p.mountpoint (replaceFirst nfs.path sourcePath ""))

/-- `Delete`: release the GID, reverse-translate the remote path (a
failure aborts deletion), then recursively remove the local tree. -/
def Delete {σ : Type} (ops : FSOps σ) (p : EfsConfig) (nfs : NFSSource)
    (s : σ) : σ × Except String Unit :=
  match ops.release s with
  | (s, .error e) => (s, .error e)
  | (s, .ok _) =>
    match getLocalPathToDelete p nfs with
    | .error e => (s, .error e)
    | .ok path => ops.removeAll path s

/-! ## GID allocation table and startup reclaimer -/

/-- The external `MinMaxAllocator`, abstracted: a numeric range and the
set of allocated GIDs. -/
structure GidTable where
  lo : Int
  hi : Int
  allocated : List Int
  deriving DecidableEq, Repr

/-- Error outcomes of `MinMaxAllocator.Allocate`. -/
inductive AllocErr where
  | conflict
  | outOfRange
  deriving DecidableEq, Repr

/-- `MinMaxAllocator.Allocate(g)`: conflict if already allocated, out of
range if outside the configured bounds, otherwise inserted. -/
def GidTable.allocate (t : GidTable) (g : Int) : GidTable × Option AllocErr :=
  if g ∈ t.allocated then (t, some .conflict)
  else if g < t.lo ∨ t.hi < g then (t, some .outOfRange)
  else ({ t with allocated := g :: t.allocated }, none)

/-- The per-entry body of `Reclaim`'s loop: non-directories, failed or
absent metadata, empty GIDs, other classes, unparsable GID values, and
allocation conflicts/failures are all skipped (table unchanged), never
fatal. -/
def reclaimEntry {σ : Type} (ops : FSOps σ) (basePath classname : String)
    (acc : σ × GidTable) (entry : DirEntry) : σ × GidTable :=
  if !entry.isDir then acc
  else
    let mddir := goJoin2 basePath entry.name
    match readVolumeMetadata ops mddir acc.1 with
    | (s, .error _) => (s, acc.2)
    | (s, .ok none) => (s, acc.2)
    | (s, .ok (some md)) =>
      if md.GID = "" then (s, acc.2)
      else if md.StorageClassName ≠ classname then (s, acc.2)
      else
        match goAtoi md.GID with
        | none => (s, acc.2)
        | some gid => (s, (acc.2.allocate gid).1)

/-- `Reclaim`: list the mount root (a listing failure is the only error
returned), then run the per-entry loop over every entry. -/
def Reclaim {σ : Type} (ops : FSOps σ) (basePath classname : String)
    (s : σ) (t : GidTable) : σ × GidTable × Except String Unit :=
  match ops.readDir basePath s with
  | (s, .error e) => (s, t, .error e)
  | (s, .ok entries) =>
    let folded := entries.foldl (reclaimEntry ops basePath classname) (s, t)
    (folded.1, folded.2, .ok ())

/-! ## Instrumented instantiation: operation traces with oracle results -/

/-- One recorded effect invocation. -/
inductive FSOp where
  | stat (path : String)
  | readFile (path : String)
  | writeFile (path content : String) (perm : Nat)
  | mkdirAll (path : String) (perm : Nat)
  | chmod (path : String) (perm : Nat)
  | chgrp (gid : Int) (path : String)
  | removeAll (path : String)
  | readDir (path : String)
  | allocateNext
  | release
  deriving DecidableEq, Repr

/-- An oracle fixing the outcome of every effect, per argument. -/
structure Oracle where
  statRes : String → StatResult
  readFileRes : String → ReadFileResult
  writeFileRes : String → String → Nat → Except String Unit
  mkdirRes : String → Nat → Except String Unit
  chmodRes : String → Nat → Except String Unit
  chgrpRes : Int → String → Except String Unit
  removeAllRes : String → Except String Unit
  readDirRes : String → Except String (List DirEntry)
  allocateNextRes : Except String Int
  releaseRes : Except String Unit
  unmarshalFn : String → Option VolumeMetadata
  marshalFn : VolumeMetadata → Except String String

/-- The operations record that appends each invocation to a trace and
answers it from the oracle. -/
def traceOps (o : Oracle) : FSOps (List FSOp) where
  stat := fun p s => (s ++ [.stat p], o.statRes p)
  readFile := fun p s => (s ++ [.readFile p], o.readFileRes p)
  writeFile := fun p c m s => (s ++ [.writeFile p c m], o.writeFileRes p c m)
  mkdirAll := fun p m s => (s ++ [.mkdirAll p m], o.mkdirRes p m)
  chmod := fun p m s => (s ++ [.chmod p m], o.chmodRes p m)
  chgrp := fun g p s => (s ++ [.chgrp g p], o.chgrpRes g p)
  removeAll := fun p s => (s ++ [.removeAll p], o.removeAllRes p)
  readDir := fun p s => (s ++ [.readDir p], o.readDirRes p)
  allocateNext := fun s => (s ++ [.allocateNext], o.allocateNextRes)
  release := fun s => (s ++ [.release], o.releaseRes)
  unmarshal := o.unmarshalFn
  marshal := o.marshalFn

/-- A plain textual rendering of a metadata record, standing in for its
JSON serialization in concrete scenarios. -/
def encodeMetadata (md : VolumeMetadata) : String :=
  "gid=" ++ md.GID ++ ";pvcName=" ++ md.PVCName ++
  ";pvcNamespace=" ++ md.PVCNamespace ++ ";storageClassName=" ++ md.StorageClassName

/-- An all-success oracle with no prior directory, used as the base of
concrete scenarios; individual fields are overridden per scenario. -/
def okOracle : Oracle where
  statRes := fun _ => .notExist
  readFileRes := fun _ => .notExist
  writeFileRes := fun _ _ _ => .ok ()
  mkdirRes := fun _ _ => .ok ()
  chmodRes := fun _ _ => .ok ()
  chgrpRes := fun _ _ => .ok ()
  removeAllRes := fun _ => .ok ()
  readDirRes := fun _ => .ok []
  allocateNextRes := .ok 2000
  releaseRes := .ok ()
  unmarshalFn := fun _ => none
  marshalFn := fun md => .ok (encodeMetadata md)

/-! ## Concrete instantiation: the state of the single target path -/

/-- The filesystem state at one target path: absent, a plain file, or a
directory with permission bits, group-owner id, and optional sidecar
content. -/
inductive PathState where
  | absent
  | file
  | dir (perm : Nat) (gid : Nat) (sidecar : Option String)
  deriving DecidableEq, Repr

/-- Concrete operation semantics at a single `target` path (and its
metadata sidecar path).  `mkdirAll` on an existing directory succeeds
and changes nothing; creation applies the process `umask` and the
parent's group; `chmod` sets the bits exactly; `chgrp` sets the group
id.  The allocator always hands out `nextGid`. -/
def pathStateOps (target : String) (umask parentGid nextGid : Nat) :
    FSOps PathState where
  stat := fun p st =>
    if p = target then
      match st with
      | .absent => (st, .notExist)
      | .file => (st, .found false 0)
      | .dir _ gid _ => (st, .found true gid)
    else (st, .notExist)
  readFile := fun p st =>
    if p = getMetaDataPath target then
      match st with
      | .dir _ _ (some c) => (st, .content c)
      | _ => (st, .notExist)
    else (st, .notExist)
  writeFile := fun p c _ st =>
    if p = getMetaDataPath target then
      match st with
      | .dir perm gid _ => (.dir perm gid (some c), .ok ())
      | _ => (st, .error ("no such directory: " ++ target))
    else (st, .error ("path not modelled: " ++ p))
  mkdirAll := fun p perm st =>
    if p = target then
      match st with
      | .absent => (.dir (perm - (perm &&& umask)) parentGid none, .ok ())
      | .file => (st, .error (p ++ ": not a directory"))
      | .dir _ _ _ => (st, .ok ())
    else (st, .error ("path not modelled: " ++ p))
  chmod := fun p perm st =>
    if p = target then
      match st with
      | .absent => (st, .error (p ++ ": no such file or directory"))
      | .file => (st, .ok ())
      | .dir _ gid sc => (.dir perm gid sc, .ok ())
    else (st, .error ("path not modelled: " ++ p))
  chgrp := fun g p st =>
    if p = target then
      if g < 0 then (st, .error "chgrp: invalid group")
      else
        match st with
        | .absent => (st, .error (p ++ ": no such file or directory"))
        | .file => (st, .ok ())
        | .dir perm _ sc => (.dir perm g.toNat sc, .ok ())
    else (st, .error ("path not modelled: " ++ p))
  removeAll := fun p st =>
    if p = target then (.absent, .ok ()) else (st, .ok ())
  readDir := fun _ st => (st, .ok [])
  allocateNext := fun st => (st, .ok (nextGid : Int))
  release := fun st => (st, .ok ())
  unmarshal := fun _ => none
  marshal := fun md => .ok (encodeMetadata md)

/-! ## Spec-side definition for the refinement comparison in C1 -/

/-- Follows the spec's words in §3/§4.1: a remote path is a descendant of
the exported root when it equals the root or extends it below a path
separator.  This is the spec's notion compared against the source's
`strings.HasPrefix` check in `getLocalPathToDelete`. -/
def specIsDescendant (p root : String) : Bool :=
  p = root ∨ goHasPrefix p (root ++ "/")

/-! ## Lemmas on the decimal codec -/

theorem digitChar_spec (d : Nat) (h : d < 10) :
    (Char.ofNat (48 + d)).isDigit = true ∧ (Char.ofNat (48 + d)).toNat = 48 + d := by
  interval_cases d <;> exact ⟨by decide, by decide⟩

theorem natToDecAux_fuel (fuel₁ : Nat) : ∀ (fuel₂ n : Nat), n < fuel₁ → n < fuel₂ →
    natToDecAux fuel₁ n = natToDecAux fuel₂ n := by
  induction fuel₁ with
  | zero => omega
  | succ f ih =>
    intro fuel₂ n h₁ h₂
    cases fuel₂ with
    | zero => omega
    | succ f₂ =>
      simp only [natToDecAux]
      by_cases hn : n < 10
      · rw [if_pos hn, if_pos hn]
      · rw [if_neg hn, if_neg hn, ih f₂ (n / 10) (by omega) (by omega)]

theorem natToDec_eq (n : Nat) :
    natToDec n = if n < 10 then [Char.ofNat (48 + n)]
      else natToDec (n / 10) ++ [Char.ofNat (48 + n % 10)] := by
  by_cases hn : n < 10
  · rw [if_pos hn, natToDec]
    simp only [natToDecAux]
    rw [if_pos hn]
  · rw [if_neg hn, natToDec, natToDec]
    have hstep : natToDecAux (n + 1) n =
        natToDecAux n (n / 10) ++ [Char.ofNat (48 + n % 10)] := by
      simp only [natToDecAux]
      rw [if_neg hn]
    rw [hstep, natToDecAux_fuel n (n / 10 + 1) (n / 10) (by omega) (by omega)]

theorem natToDec_ne_nil (n : Nat) : natToDec n ≠ [] := by
  rw [natToDec_eq]
  split <;> simp

theorem natToDec_all_digits (n : Nat) : (natToDec n).all Char.isDigit = true := by
  induction n using Nat.strong_induction_on with
  | _ n ih =>
    rw [natToDec_eq]
    split
    · simpa using (digitChar_spec n (by omega)).1
    · rename_i h
      rw [List.all_append]
      have h1 := ih (n / 10) (Nat.div_lt_self (by omega) (by omega))
      have h2 := (digitChar_spec (n % 10) (Nat.mod_lt _ (by omega))).1
      simp [h1, h2]

theorem natToDec_foldl (n : Nat) : ∀ a : Nat,
    (natToDec n).foldl (fun a c => a * 10 + (c.toNat - 48)) a
      = a * 10 ^ (natToDec n).length + n := by
  induction n using Nat.strong_induction_on with
  | _ n ih =>
    intro a
    rw [natToDec_eq]
    split
    · rename_i h
      simp [List.foldl, (digitChar_spec n h).2]
    · rename_i h
      rw [List.foldl_append, List.length_append,
        ih (n / 10) (Nat.div_lt_self (by omega) (by omega)) a]
      simp only [List.foldl, (digitChar_spec (n % 10) (Nat.mod_lt _ (by omega))).2,
        List.length_cons, List.length_nil, pow_succ, ← mul_assoc]
      generalize a * 10 ^ (natToDec (n / 10)).length = B
      omega

theorem decDigits?_natToDec (n : Nat) : decDigits? (natToDec n) = some n := by
  rw [decDigits?, if_pos]
  · rw [natToDec_foldl n 0]
    simp
  · exact ⟨natToDec_ne_nil n, natToDec_all_digits n⟩

theorem decDigits?_some_shape (cs : List Char) (m : Nat)
    (h : decDigits? cs = some m) : cs ≠ [] ∧ cs.all Char.isDigit = true := by
  rw [decDigits?] at h
  by_cases hc : cs ≠ [] ∧ cs.all Char.isDigit
  · exact hc
  · rw [if_neg hc] at h
    cases h

theorem toList_mk (l : List Char) : (String.mk l).toList = l := rfl

theorem parseUint32_itoa (g : Int) (h0 : 0 ≤ g) (h1 : g < 2 ^ 32) :
    parseUint32 (itoa g) = some g.toNat := by
  have h32i : (2 : Int) ^ 32 = 4294967296 := by norm_num
  have h32n : (2 : Nat) ^ 32 = 4294967296 := by norm_num
  rw [h32i] at h1
  rw [itoa, if_neg (by omega), parseUint32, toList_mk, decDigits?_natToDec]
  simp [Option.bind]
  omega

theorem itoa_ne_empty (g : Int) (h0 : 0 ≤ g) : itoa g ≠ "" := by
  rw [itoa, if_neg (by omega)]
  intro h
  exact natToDec_ne_nil g.toNat (congrArg String.toList h)

theorem goAtoi_itoa (g : Int) (h0 : 0 ≤ g) (h1 : g < 2 ^ 63) :
    goAtoi (itoa g) = some g := by
  have h63i : (2 : Int) ^ 63 = 9223372036854775808 := by norm_num
  rw [h63i] at h1
  rw [itoa, if_neg (by omega)]
  have hbound : g.toNat ≤ 2 ^ 63 - 1 := by
    have h63n : (2 : Nat) ^ 63 = 9223372036854775808 := by norm_num
    rw [h63n]
    omega
  cases hl : natToDec g.toNat with
  | nil => exact absurd hl (natToDec_ne_nil _)
  | cons c rest =>
    have hdig : c.isDigit = true := by
      have := natToDec_all_digits g.toNat
      rw [hl, List.all_cons, Bool.and_eq_true] at this
      exact this.1
    have hplus : ¬ c = '+' := by
      intro hcp
      rw [hcp] at hdig
      exact absurd hdig (by decide)
    have hminus : ¬ c = '-' := by
      intro hcp
      rw [hcp] at hdig
      exact absurd hdig (by decide)
    have hred : goAtoi (String.mk (c :: rest)) =
        (decDigits? (c :: rest)).bind
          (fun n => if n ≤ 2 ^ 63 - 1 then some (n : Int) else none) := by
      simp only [goAtoi, toList_mk]
      rw [if_neg hplus, if_neg hminus]
    rw [hred, ← hl, decDigits?_natToDec]
    have : (g.toNat : Int) = g := Int.toNat_of_nonneg h0
    simp [Option.bind, hbound, this]
    omega

theorem goAtoi_of_parseUint32 (s : String) (n : Nat) (h : parseUint32 s = some n) :
    goAtoi s = some n := by
  rw [parseUint32] at h
  cases hd : decDigits? s.toList with
  | none => rw [hd] at h; cases h
  | some m =>
    rw [hd] at h
    simp only [Option.bind] at h
    have hm32 : m < 2 ^ 32 := by
      by_cases hc : m < 2 ^ 32
      · exact hc
      · rw [if_neg hc] at h; cases h
    rw [if_pos hm32] at h
    have hnm : n = m := by cases h; rfl
    obtain ⟨hne, hall⟩ := decDigits?_some_shape _ _ hd
    cases hl : s.toList with
    | nil => exact absurd hl hne
    | cons c rest =>
      have hdig : c.isDigit = true := by
        rw [hl, List.all_cons, Bool.and_eq_true] at hall
        exact hall.1
      have hplus : ¬ c = '+' := by
        intro hcp; rw [hcp] at hdig; exact absurd hdig (by decide)
      have hminus : ¬ c = '-' := by
        intro hcp; rw [hcp] at hdig; exact absurd hdig (by decide)
      have hbound : m ≤ 9223372036854775807 := by
        have e32 : (2 : Nat) ^ 32 = 4294967296 := by norm_num
        rw [e32] at hm32
        omega
      have hred : goAtoi s =
          (decDigits? (c :: rest)).bind
            (fun n => if n ≤ 2 ^ 63 - 1 then some (n : Int) else none) := by
        simp only [goAtoi, hl]
        rw [if_neg hplus, if_neg hminus]
      rw [hred, ← hl, hd]
      simp [Option.bind, hbound, hnm]

/-! ## Shared structural lemmas about the engine -/

theorem validate_ok_implies (options : VolumeOptions) (md : VolumeMetadata)
    (volumePath : String) (egid : Nat) (u : Unit)
    (h : validatePreexistingVolume options (some md) volumePath egid = .ok u) :
    md.StorageClassName = options.pvcClass ∧ md.PVCName = options.pvcName ∧
    md.PVCNamespace = options.pvcNamespace := by
  rw [validatePreexistingVolume] at h
  by_cases h1 : md.StorageClassName ≠ options.pvcClass
  · rw [if_pos h1] at h; cases h
  · rw [if_neg h1] at h
    by_cases h2 : md.PVCName ≠ options.pvcName ∨ md.PVCNamespace ≠ options.pvcNamespace
    · rw [if_pos h2] at h; cases h
    · push_neg at h1 h2
      exact ⟨h1, h2⟩

/-! ## Concrete fixtures for witnesses and counterexamples -/

/-- A provisioner mounted at `/mnt/efs` from `fs.example.com:/export`. -/
def cfgEx : EfsConfig :=
  { dnsName := "fs.example.com", mountpoint := "/mnt/efs", source := "fs.example.com:/export" }

/-- A reuse-mode request for claim `claim-a` in namespace `ns1`. -/
def optsReuseEx : VolumeOptions :=
  { pvName := "pv-1", pvcName := "claim-a", pvcNamespace := "ns1", pvcClass := "cls",
    hasSelector := false, parameters := [("reuseVolumes", "true")], mountOptions := none }

/-- The metadata record the fixtures persist for `claim-a`. -/
def mdEx : VolumeMetadata :=
  { GID := "2000", PVCName := "claim-a", PVCNamespace := "ns1", StorageClassName := "cls" }

/-! ## Claim theorems -/

/-- C9: with mount source `fs.example.com:/export`, configured server
`fs.example.com` and mount point `/mnt/efs`, the claim `claim-a` in
namespace `ns1` yields directory name `claim-a-ns1`, local path
`/mnt/efs/claim-a-ns1` (mount point joined with the name) and remote
path `/export/claim-a-ns1` (source with the `server:` prefix stripped,
cleaned, joined with the name). -/
theorem translate_example_paths :
    getDirectoryName optsReuseEx = .ok "claim-a-ns1" ∧
    getLocalPath cfgEx optsReuseEx = .ok "/mnt/efs/claim-a-ns1" ∧
    getRemotePath cfgEx optsReuseEx = .ok "/export/claim-a-ns1" := by
  exact ⟨rfl, rfl, rfl⟩

/-- C1 counterexample: with exported root `/export`, the remote path
`/exportfoo` is not a descendant of the exported root, the declared
server matches, and yet `Delete` does not fail: it succeeds and performs
a recursive removal (of `/mnt/efs/foo`), because the source checks a
plain string prefix rather than path descent. -/
theorem delete_nondescendant_removes_counterexample :
    goClean (replaceFirst cfgEx.source (cfgEx.dnsName ++ ":") "") = "/export" ∧
    specIsDescendant "/exportfoo" "/export" = false ∧
    Delete (traceOps okOracle) cfgEx
        { server := "fs.example.com", path := "/exportfoo" } [] =
      ([.release, .removeAll "/mnt/efs/foo"], .ok ()) := by
  exact ⟨rfl, rfl, rfl⟩

/-- C1 (amended): if the descriptor's server differs from the configured
server, or its remote path does not have the exported root as a string
prefix, then no removal is performed, and — provided the preceding GID
release succeeded — `Delete` fails with the path-mismatch error. -/
theorem delete_path_mismatch_aborts (o : Oracle) (p : EfsConfig) (nfs : NFSSource)
    (h : nfs.server ≠ p.dnsName ∨
         goHasPrefix nfs.path (goClean (replaceFirst p.source (p.dnsName ++ ":") "")) = false) :
    (∀ q, FSOp.removeAll q ∉ (Delete (traceOps o) p nfs []).1) ∧
    (o.releaseRes = .ok () → ∃ e, (Delete (traceOps o) p nfs []).2 = .error e) := by
  have hnotok : ∀ r, ¬ getLocalPathToDelete p nfs = .ok r := by
    intro r hr
    rw [getLocalPathToDelete] at hr
    by_cases hs : nfs.server ≠ p.dnsName
    · rw [if_pos hs] at hr
      cases hr
    · rw [if_neg hs] at hr
      rcases h with h | h
      · exact absurd h hs
      · rw [if_pos (by simp [h])] at hr
        cases hr
  obtain ⟨e, he⟩ : ∃ e, getLocalPathToDelete p nfs = .error e := by
    cases hg : getLocalPathToDelete p nfs with
    | error e => exact ⟨e, rfl⟩
    | ok r => exact absurd hg (hnotok r)
  cases hr : o.releaseRes with
  | error re =>
    constructor
    · intro q
      simp [Delete, traceOps, hr]
    · intro hok
      cases hok
  | ok u =>
    constructor
    · intro q
      simp [Delete, traceOps, hr, he]
    · intro _
      exact ⟨e, by simp [Delete, traceOps, hr, he]⟩

/-- C1 witness: a deletion request for `/other/x` (server matching,
outside the exported root) performs no removal and fails. -/
theorem delete_path_mismatch_aborts_witness :
    (∀ q, FSOp.removeAll q ∉
      (Delete (traceOps okOracle) cfgEx
        { server := "fs.example.com", path := "/other/x" } []).1) ∧
    (okOracle.releaseRes = .ok () → ∃ e,
      (Delete (traceOps okOracle) cfgEx
        { server := "fs.example.com", path := "/other/x" } []).2 = .error e) :=
  delete_path_mismatch_aborts okOracle cfgEx
    { server := "fs.example.com", path := "/other/x" } (Or.inr (by decide))

/-- Oracle for the C2 counterexample: everything succeeds except the
sidecar write. -/
def oWriteFail : Oracle :=
  { okOracle with writeFileRes := fun _ _ _ => .error "disk full" }

/-- C2 counterexample: in a reuse-mode provisioning that creates the
directory, the metadata sidecar write fails, yet `Provision` succeeds —
the write error is discarded by the source, not surfaced. -/
theorem metadata_write_failure_not_surfaced_counterexample :
    oWriteFail.writeFileRes "/mnt/efs/claim-a-ns1/.kube-efs-provisioner-metadata"
      (encodeMetadata mdEx) 0o600 = .error "disk full" ∧
    FSOp.writeFile "/mnt/efs/claim-a-ns1/.kube-efs-provisioner-metadata"
      (encodeMetadata mdEx) 0o600
      ∈ (Provision (traceOps oWriteFail) cfgEx optsReuseEx []).1 ∧
    (Provision (traceOps oWriteFail) cfgEx optsReuseEx []).2 =
      .ok { name := "pv-1", server := "fs.example.com", path := "/export/claim-a-ns1",
            readOnly := false, mountOptions := ["vers=4.1"], gidAnnotation := some 2000 } := by
  refine ⟨rfl, by decide, rfl⟩

/-- C2 (amended): a reuse-mode provisioning that creates a new directory
serializes and writes the Ownership Metadata record (GID, claim name,
claim namespace, class name) to the sidecar file, but a failure of that
write is ignored: `Provision` succeeds for every write outcome. -/
theorem metadata_write_attempted_error_ignored (o : Oracle) (p : EfsConfig)
    (options : VolumeOptions) (dirname content : String) (g : Int)
    (hsel : options.hasSelector = false)
    (hreuse : reuseVolumesOption options = .ok true)
    (hdir : getDirectoryName options = .ok dirname)
    (hga : paramGidAllocate options.parameters = .ok true)
    (hmo : options.mountOptions = none)
    (hstat : o.statRes (goJoin2 p.mountpoint dirname) = .notExist)
    (halloc : o.allocateNextRes = .ok g)
    (hmk : o.mkdirRes (goJoin2 p.mountpoint dirname) (0o771 ||| modeSetgid) = .ok ())
    (hcm : o.chmodRes (goJoin2 p.mountpoint dirname) (0o771 ||| modeSetgid) = .ok ())
    (hcg : o.chgrpRes g (goJoin2 p.mountpoint dirname) = .ok ())
    (hmar : o.marshalFn { GID := itoa g, PVCName := options.pvcName,
                          PVCNamespace := options.pvcNamespace,
                          StorageClassName := options.pvcClass } = .ok content) :
    Provision (traceOps o) p options [] =
      ([.stat (goJoin2 p.mountpoint dirname), .allocateNext,
        .mkdirAll (goJoin2 p.mountpoint dirname) (0o771 ||| modeSetgid),
        .chmod (goJoin2 p.mountpoint dirname) (0o771 ||| modeSetgid),
        .chgrp g (goJoin2 p.mountpoint dirname),
        .writeFile (getMetaDataPath (goJoin2 p.mountpoint dirname)) content 0o600],
       .ok { name := options.pvName, server := p.dnsName,
             path := goJoin2 (goClean (replaceFirst p.source (p.dnsName ++ ":") "")) dirname,
             readOnly := false, mountOptions := ["vers=4.1"],
             gidAnnotation := some g }) := by
  simp only [Provision, hsel, getLocalPath, hdir, hreuse, volumeExists, traceOps, hstat, hga,
    createVolume, writeVolumeMetadata, hmar, halloc, hmk, hcm, hcg, getRemotePath, hmo]
  simp [hmk, hcm, hcg, hmar]

/-- C2 witness: the amended statement at the concrete write-failure
scenario. -/
theorem metadata_write_attempted_error_ignored_witness :
    Provision (traceOps oWriteFail) cfgEx optsReuseEx [] =
      ([.stat (goJoin2 cfgEx.mountpoint "claim-a-ns1"), .allocateNext,
        .mkdirAll (goJoin2 cfgEx.mountpoint "claim-a-ns1") (0o771 ||| modeSetgid),
        .chmod (goJoin2 cfgEx.mountpoint "claim-a-ns1") (0o771 ||| modeSetgid),
        .chgrp 2000 (goJoin2 cfgEx.mountpoint "claim-a-ns1"),
        .writeFile (getMetaDataPath (goJoin2 cfgEx.mountpoint "claim-a-ns1"))
          (encodeMetadata mdEx) 0o600],
       .ok { name := "pv-1", server := cfgEx.dnsName,
             path := goJoin2 (goClean (replaceFirst cfgEx.source (cfgEx.dnsName ++ ":") ""))
               "claim-a-ns1",
             readOnly := false, mountOptions := ["vers=4.1"],
             gidAnnotation := some 2000 }) :=
  metadata_write_attempted_error_ignored oWriteFail cfgEx optsReuseEx "claim-a-ns1"
    (encodeMetadata mdEx) 2000 rfl rfl rfl rfl rfl rfl rfl rfl rfl rfl rfl

/-- C3: a reuse-mode request against an existing directory whose
metadata differs in storage class, claim name, or claim namespace fails,
and the run performs only the stat and the metadata read — no write,
removal, or ownership change touches the directory or its metadata. -/
theorem provision_ownership_mismatch (o : Oracle) (p : EfsConfig)
    (options : VolumeOptions) (dirname : String) (egid : Nat) (md : VolumeMetadata) (c : String)
    (hsel : options.hasSelector = false)
    (hreuse : reuseVolumesOption options = .ok true)
    (hdir : getDirectoryName options = .ok dirname)
    (hstat : o.statRes (goJoin2 p.mountpoint dirname) = .found true egid)
    (hread : o.readFileRes (getMetaDataPath (goJoin2 p.mountpoint dirname)) = .content c)
    (hum : o.unmarshalFn c = some md)
    (hmm : md.StorageClassName ≠ options.pvcClass ∨ md.PVCName ≠ options.pvcName ∨
           md.PVCNamespace ≠ options.pvcNamespace) :
    ∃ e, Provision (traceOps o) p options [] =
      ([.stat (goJoin2 p.mountpoint dirname),
        .readFile (getMetaDataPath (goJoin2 p.mountpoint dirname))], .error e) := by
  cases hv : validatePreexistingVolume options (some md) (goJoin2 p.mountpoint dirname) egid with
  | ok u =>
    obtain ⟨h1, h2, h3⟩ := validate_ok_implies _ _ _ _ _ hv
    rcases hmm with h | h | h
    · exact absurd h1 h
    · exact absurd h2 h
    · exact absurd h3 h
  | error e =>
    refine ⟨e, ?_⟩
    simp only [Provision, hsel, getLocalPath, hdir, hreuse, volumeExists, traceOps,
      readVolumeMetadata, hstat, hread, hum]
    simp [hv]

/-- Oracle for the C3 witness: the directory exists with group id 5 and
its metadata names a different storage class. -/
def oC3 : Oracle :=
  { okOracle with
    statRes := fun _ => .found true 5
    readFileRes := fun _ => .content "J"
    unmarshalFn := fun c =>
      if c = "J" then
        some { GID := "5", PVCName := "claim-a", PVCNamespace := "ns1",
               StorageClassName := "other" }
      else none }

/-- C3 witness: the ownership-mismatch rejection at a concrete request. -/
theorem provision_ownership_mismatch_witness :
    ∃ e, Provision (traceOps oC3) cfgEx optsReuseEx [] =
      ([.stat (goJoin2 cfgEx.mountpoint "claim-a-ns1"),
        .readFile (getMetaDataPath (goJoin2 cfgEx.mountpoint "claim-a-ns1"))], .error e) :=
  provision_ownership_mismatch oC3 cfgEx optsReuseEx "claim-a-ns1" 5
    { GID := "5", PVCName := "claim-a", PVCNamespace := "ns1", StorageClassName := "other" }
    "J" rfl rfl rfl rfl rfl rfl (Or.inl (by decide))

/-- C5: an absent sidecar file reads as `none` without error; a present
but unparsable sidecar is a hard error; a reuse-mode request against an
existing directory with no sidecar fails with the missing-metadata
error. -/
theorem missing_metadata_semantics (o o₂ : Oracle) (p : EfsConfig)
    (options : VolumeOptions) (dirname dir₂ c : String) (egid : Nat)
    (s s₂ : List FSOp)
    (hsel : options.hasSelector = false)
    (hreuse : reuseVolumesOption options = .ok true)
    (hdir : getDirectoryName options = .ok dirname)
    (hstat : o.statRes (goJoin2 p.mountpoint dirname) = .found true egid)
    (hread : o.readFileRes (getMetaDataPath (goJoin2 p.mountpoint dirname)) = .notExist)
    (h₂r : o₂.readFileRes (getMetaDataPath dir₂) = .content c)
    (h₂u : o₂.unmarshalFn c = none) :
    readVolumeMetadata (traceOps o) (goJoin2 p.mountpoint dirname) s =
      (s ++ [.readFile (getMetaDataPath (goJoin2 p.mountpoint dirname))], .ok none) ∧
    (readVolumeMetadata (traceOps o₂) dir₂ s₂).2 =
      .error ("failed to unmarshal " ++ getMetaDataPath dir₂) ∧
    (Provision (traceOps o) p options []).2 =
      .error (goJoin2 p.mountpoint dirname ++ " already exists but has no volume metadata") := by
  refine ⟨?_, ?_, ?_⟩
  · simp [readVolumeMetadata, traceOps, hread]
  · simp [readVolumeMetadata, traceOps, h₂r, h₂u]
  · simp only [Provision, hsel, getLocalPath, hdir, hreuse, volumeExists, traceOps,
      readVolumeMetadata, hstat, hread]
    simp [validatePreexistingVolume]

/-- Oracle for the C5 witness: the directory exists, its sidecar is
absent for the first scenario, and a second oracle serves unparsable
sidecar content. -/
def oC5 : Oracle := { okOracle with statRes := fun _ => .found true 0 }

/-- Second oracle for the C5 witness: sidecar present but unparsable. -/
def oC5bad : Oracle := { okOracle with readFileRes := fun _ => .content "not json" }

/-- C5 witness: the three metadata-read behaviours at concrete inputs. -/
theorem missing_metadata_semantics_witness :
    readVolumeMetadata (traceOps oC5) (goJoin2 cfgEx.mountpoint "claim-a-ns1") [] =
      ([.readFile (getMetaDataPath (goJoin2 cfgEx.mountpoint "claim-a-ns1"))], .ok none) ∧
    (readVolumeMetadata (traceOps oC5bad) "/mnt/efs/d" []).2 =
      .error ("failed to unmarshal " ++ getMetaDataPath "/mnt/efs/d") ∧
    (Provision (traceOps oC5) cfgEx optsReuseEx []).2 =
      .error (goJoin2 cfgEx.mountpoint "claim-a-ns1" ++
        " already exists but has no volume metadata") :=
  missing_metadata_semantics oC5 oC5bad cfgEx optsReuseEx "claim-a-ns1" "/mnt/efs/d"
    "not json" 0 [] [] rfl rfl rfl rfl rfl rfl rfl

/-- C6: if the chmod that re-applies the permission bits fails, or the
external chgrp fails, `createVolume` removes the just-created directory
tree before returning the error. -/
theorem create_volume_rollback (o : Oracle) (path : String) (gid : Option Int)
    (g : Int) (e : String) :
    (o.mkdirRes path (if gid.isSome then 0o771 ||| modeSetgid else 0o777) = .ok () →
     o.chmodRes path (if gid.isSome then 0o771 ||| modeSetgid else 0o777) = .error e →
     createVolume (traceOps o) path gid [] =
       ([.mkdirAll path (if gid.isSome then 0o771 ||| modeSetgid else 0o777),
         .chmod path (if gid.isSome then 0o771 ||| modeSetgid else 0o777),
         .removeAll path], .error e)) ∧
    (o.mkdirRes path (0o771 ||| modeSetgid) = .ok () →
     o.chmodRes path (0o771 ||| modeSetgid) = .ok () →
     o.chgrpRes g path = .error e →
     createVolume (traceOps o) path (some g) [] =
       ([.mkdirAll path (0o771 ||| modeSetgid), .chmod path (0o771 ||| modeSetgid),
         .chgrp g path, .removeAll path], .error ("chgrp failed with error: " ++ e))) := by
  constructor
  · intro hmk hcm
    cases gid with
    | none =>
      simp only [Option.isSome_none, Bool.false_eq_true, if_false] at hmk hcm ⊢
      simp [createVolume, traceOps, hmk, hcm]
    | some g' =>
      simp only [Option.isSome_some, if_true] at hmk hcm ⊢
      simp [createVolume, traceOps, hmk, hcm]
  · intro hmk hcm hcg
    simp [createVolume, traceOps, hmk, hcm, hcg]

/-- Oracle for the C6 witness: chgrp fails. -/
def oC6 : Oracle := { okOracle with chgrpRes := fun _ _ => .error "boom" }

/-- C6 witness: the chgrp-failure rollback at a concrete path. -/
theorem create_volume_rollback_witness :
    createVolume (traceOps oC6) "/mnt/efs/d" (some 5) [] =
      ([.mkdirAll "/mnt/efs/d" (0o771 ||| modeSetgid), .chmod "/mnt/efs/d" (0o771 ||| modeSetgid),
        .chgrp 5 "/mnt/efs/d", .removeAll "/mnt/efs/d"],
       .error ("chgrp failed with error: " ++ "boom")) :=
  (create_volume_rollback oC6 "/mnt/efs/d" (some 5) 5 "boom").2 rfl rfl rfl

/-- C4: in a reuse-mode request against an existing directory whose
metadata records a non-empty, parseable GID: if that GID differs from
the directory's on-disk group id, the request fails; if it matches, the
request publishes that GID in the descriptor and performs no new GID
allocation. -/
theorem reuse_gid_validation (o : Oracle) (p : EfsConfig) (options : VolumeOptions)
    (dirname c : String) (egid n : Nat) (md : VolumeMetadata)
    (hsel : options.hasSelector = false)
    (hreuse : reuseVolumesOption options = .ok true)
    (hdir : getDirectoryName options = .ok dirname)
    (hstat : o.statRes (goJoin2 p.mountpoint dirname) = .found true egid)
    (hread : o.readFileRes (getMetaDataPath (goJoin2 p.mountpoint dirname)) = .content c)
    (hum : o.unmarshalFn c = some md)
    (hcls : md.StorageClassName = options.pvcClass)
    (hnm : md.PVCName = options.pvcName)
    (hns : md.PVCNamespace = options.pvcNamespace)
    (hgne : md.GID ≠ "")
    (hparse : parseUint32 md.GID = some n) :
    (n ≠ egid → ∃ e, (Provision (traceOps o) p options []).2 = .error e) ∧
    (n = egid → ∃ pv, Provision (traceOps o) p options [] =
        ([.stat (goJoin2 p.mountpoint dirname),
          .readFile (getMetaDataPath (goJoin2 p.mountpoint dirname))], .ok pv) ∧
        pv.gidAnnotation = some (egid : Int) ∧
        FSOp.allocateNext ∉ (Provision (traceOps o) p options []).1) := by
  constructor
  · intro hne
    have hv : ∃ e, validatePreexistingVolume options (some md)
        (goJoin2 p.mountpoint dirname) egid = .error e := by
      rw [validatePreexistingVolume, if_neg (by simp [hcls]), if_neg (by simp [hnm, hns]),
        if_pos hgne]
      simp only [gidAsUInt, hparse, Option.getD_some]
      rw [if_pos (by omega)]
      exact ⟨_, rfl⟩
    obtain ⟨e, hv⟩ := hv
    refine ⟨e, ?_⟩
    simp only [Provision, hsel, getLocalPath, hdir, hreuse, volumeExists, traceOps,
      readVolumeMetadata, hstat, hread, hum]
    simp [hv]
  · intro heq
    have hv : validatePreexistingVolume options (some md)
        (goJoin2 p.mountpoint dirname) egid = .ok () := by
      rw [validatePreexistingVolume, if_neg (by simp [hcls]), if_neg (by simp [hnm, hns]),
        if_pos hgne]
      simp only [gidAsUInt, hparse, Option.getD_some]
      rw [if_neg (by omega)]
    have hatoi : goAtoi md.GID = some (n : Int) := goAtoi_of_parseUint32 _ _ hparse
    have hP : Provision (traceOps o) p options [] =
        ([.stat (goJoin2 p.mountpoint dirname),
          .readFile (getMetaDataPath (goJoin2 p.mountpoint dirname))],
         .ok { name := options.pvName, server := p.dnsName,
               path := goJoin2 (goClean (replaceFirst p.source (p.dnsName ++ ":") "")) dirname,
               readOnly := false,
               mountOptions := match options.mountOptions with
                 | some mo => mo
                 | none => ["vers=4.1"],
               gidAnnotation := some (egid : Int) }) := by
      simp only [Provision, hsel, getLocalPath, hdir, hreuse, volumeExists, traceOps,
        readVolumeMetadata, hstat, hread, hum, getRemotePath]
      simp [hv, hgne, hatoi, heq]
    exact ⟨_, hP, rfl, by rw [hP]; simp⟩

/-- Oracle for the C4 witness: the directory exists with group id 7 and
matching metadata recording GID 7. -/
def oC4 : Oracle :=
  { okOracle with
    statRes := fun _ => .found true 7
    readFileRes := fun _ => .content "J"
    unmarshalFn := fun c =>
      if c = "J" then
        some { GID := "7", PVCName := "claim-a", PVCNamespace := "ns1",
               StorageClassName := "cls" }
      else none }

/-- C4 witness: the GID check at a concrete matching request. -/
theorem reuse_gid_validation_witness :
    ((7 : Nat) ≠ 7 → ∃ e, (Provision (traceOps oC4) cfgEx optsReuseEx []).2 = .error e) ∧
    ((7 : Nat) = 7 → ∃ pv, Provision (traceOps oC4) cfgEx optsReuseEx [] =
        ([.stat (goJoin2 cfgEx.mountpoint "claim-a-ns1"),
          .readFile (getMetaDataPath (goJoin2 cfgEx.mountpoint "claim-a-ns1"))], .ok pv) ∧
        pv.gidAnnotation = some ((7 : Nat) : Int) ∧
        FSOp.allocateNext ∉ (Provision (traceOps oC4) cfgEx optsReuseEx []).1) :=
  reuse_gid_validation oC4 cfgEx optsReuseEx "claim-a-ns1" "J" 7 7
    { GID := "7", PVCName := "claim-a", PVCNamespace := "ns1", StorageClassName := "cls" }
    rfl rfl rfl rfl rfl rfl rfl rfl rfl (by decide) rfl

/-- C7: the startup reclaim scan returns an error exactly when listing
the mount root fails; a failed or absent metadata read, an empty GID, a
different storage class, an unparsable GID, or a GID already present in
the table only skips that directory, leaving the table unchanged. -/
theorem reclaim_scan_resilient (o : Oracle) (basePath classname : String)
    (s : List FSOp) (t : GidTable) :
    (∀ e, o.readDirRes basePath = .error e →
      Reclaim (traceOps o) basePath classname s t = (s ++ [.readDir basePath], t, .error e)) ∧
    (∀ entries, o.readDirRes basePath = .ok entries →
      (Reclaim (traceOps o) basePath classname s t).2.2 = .ok ()) ∧
    (∀ s' t' entry s'' r,
      readVolumeMetadata (traceOps o) (goJoin2 basePath entry.name) s' = (s'', r) →
      (∀ md, r = .ok (some md) →
        md.GID = "" ∨ md.StorageClassName ≠ classname ∨ goAtoi md.GID = none ∨
        (∃ gid, goAtoi md.GID = some gid ∧ gid ∈ t'.allocated)) →
      (reclaimEntry (traceOps o) basePath classname (s', t') entry).2 = t') := by
  refine ⟨?_, ?_, ?_⟩
  · intro e he
    simp [Reclaim, traceOps, he]
  · intro entries he
    simp [Reclaim, traceOps, he]
  · intro s' t' entry s'' r hrm hbad
    rw [reclaimEntry]
    by_cases hd : entry.isDir = true
    · rw [if_neg (by simp [hd])]
      simp only [hrm]
      cases r with
      | error e => rfl
      | ok md? =>
        cases md? with
        | none => rfl
        | some md =>
          rcases hbad md rfl with h | h | h | ⟨gid, hg, hmem⟩
          · simp [h]
          · by_cases hG : md.GID = ""
            · simp [hG]
            · simp [hG, h]
          · by_cases hG : md.GID = ""
            · simp [hG]
            · by_cases hC : md.StorageClassName = classname
              · simp [hG, hC, h]
              · simp [hG, hC]
          · by_cases hG : md.GID = ""
            · simp [hG]
            · by_cases hC : md.StorageClassName = classname
              · simp [hG, hC, hg, GidTable.allocate, hmem]
              · simp [hG, hC]
    · rw [if_pos (by simp [Bool.not_eq_true] at hd; simp [hd])]

/-- Oracle for the C7 witness: two directories both claiming GID 2000
for the scanned class. -/
def oC7 : Oracle :=
  { okOracle with
    readDirRes := fun _ => .ok [{ name := "d1", isDir := true }, { name := "d2", isDir := true }]
    readFileRes := fun _ => .content "M"
    unmarshalFn := fun c =>
      if c = "M" then
        some { GID := "2000", PVCName := "x", PVCNamespace := "y", StorageClassName := "cls" }
      else none }

/-- C7 witness: the conflict scan over two directories claiming the same
GID completes without error. -/
theorem reclaim_scan_resilient_witness :
    (Reclaim (traceOps oC7) "/mnt/efs" "cls" []
      { lo := 0, hi := 5000, allocated := [] }).2.2 = .ok () :=
  (reclaim_scan_resilient oC7 "/mnt/efs" "cls" []
    { lo := 0, hi := 5000, allocated := [] }).2.1
    [{ name := "d1", isDir := true }, { name := "d2", isDir := true }] rfl

/-- The reuse flag depends only on the request parameters. -/
theorem reuseVolumesOption_param_congr (o₁ o₂ : VolumeOptions)
    (hp : o₁.parameters = o₂.parameters) :
    reuseVolumesOption o₂ = reuseVolumesOption o₁ := by
  rw [reuseVolumesOption, reuseVolumesOption, hp]

/-- In reuse mode the directory name depends only on the parameters and
the claim's name and namespace — not on the generated PV name. -/
theorem getDirectoryName_congr (o₁ o₂ : VolumeOptions)
    (hp : o₁.parameters = o₂.parameters) (hn : o₁.pvcName = o₂.pvcName)
    (hns : o₁.pvcNamespace = o₂.pvcNamespace)
    (hr : reuseVolumesOption o₁ = .ok true) :
    getDirectoryName o₂ = getDirectoryName o₁ := by
  have hr₂ : reuseVolumesOption o₂ = .ok true := by
    rw [reuseVolumesOption_param_congr o₁ o₂ hp, hr]
  rw [getDirectoryName, getDirectoryName, hr, hr₂]
  simp [hp, hn, hns]

/-- C8: provisioning the same reuse-mode claim twice with no intervening
deletion: the first call creates the directory and writes the metadata;
the second call — against the directory and metadata the first call
produced — succeeds with the same local and remote paths, and performs
no directory creation, no GID allocation, and no metadata write. -/
theorem reuse_provision_idempotent (o₁ o₂ : Oracle) (p : EfsConfig)
    (options₁ options₂ : VolumeOptions) (dirname content c₂ : String) (g : Int)
    (hpar : options₁.parameters = options₂.parameters)
    (hnm : options₁.pvcName = options₂.pvcName)
    (hnsp : options₁.pvcNamespace = options₂.pvcNamespace)
    (hcls : options₁.pvcClass = options₂.pvcClass)
    (hsel₁ : options₁.hasSelector = false) (hsel₂ : options₂.hasSelector = false)
    (hmo₂ : options₂.mountOptions = none)
    (hreuse : reuseVolumesOption options₁ = .ok true)
    (hga : paramGidAllocate options₁.parameters = .ok true)
    (hdir : getDirectoryName options₁ = .ok dirname)
    (h0g : 0 ≤ g) (hg32 : g < 2 ^ 32)
    (hstat₁ : o₁.statRes (goJoin2 p.mountpoint dirname) = .notExist)
    (halloc : o₁.allocateNextRes = .ok g)
    (hmk : o₁.mkdirRes (goJoin2 p.mountpoint dirname) (0o771 ||| modeSetgid) = .ok ())
    (hcm : o₁.chmodRes (goJoin2 p.mountpoint dirname) (0o771 ||| modeSetgid) = .ok ())
    (hcg : o₁.chgrpRes g (goJoin2 p.mountpoint dirname) = .ok ())
    (hmar : o₁.marshalFn { GID := itoa g, PVCName := options₁.pvcName,
                           PVCNamespace := options₁.pvcNamespace,
                           StorageClassName := options₁.pvcClass } = .ok content)
    (hstat₂ : o₂.statRes (goJoin2 p.mountpoint dirname) = .found true g.toNat)
    (hread₂ : o₂.readFileRes (getMetaDataPath (goJoin2 p.mountpoint dirname)) = .content c₂)
    (hum₂ : o₂.unmarshalFn c₂ = some { GID := itoa g, PVCName := options₁.pvcName,
                                       PVCNamespace := options₁.pvcNamespace,
                                       StorageClassName := options₁.pvcClass }) :
    getLocalPath p options₂ = getLocalPath p options₁ ∧
    (Provision (traceOps o₁) p options₁ []).2 =
      .ok { name := options₁.pvName, server := p.dnsName,
            path := goJoin2 (goClean (replaceFirst p.source (p.dnsName ++ ":") "")) dirname,
            readOnly := false,
            mountOptions := match options₁.mountOptions with
              | some mo => mo
              | none => ["vers=4.1"],
            gidAnnotation := some g } ∧
    Provision (traceOps o₂) p options₂ [] =
      ([.stat (goJoin2 p.mountpoint dirname),
        .readFile (getMetaDataPath (goJoin2 p.mountpoint dirname))],
       .ok { name := options₂.pvName, server := p.dnsName,
             path := goJoin2 (goClean (replaceFirst p.source (p.dnsName ++ ":") "")) dirname,
             readOnly := false, mountOptions := ["vers=4.1"],
             gidAnnotation := some g }) ∧
    (∀ q m, FSOp.mkdirAll q m ∉ (Provision (traceOps o₂) p options₂ []).1) ∧
    FSOp.allocateNext ∉ (Provision (traceOps o₂) p options₂ []).1 ∧
    (∀ q c m, FSOp.writeFile q c m ∉ (Provision (traceOps o₂) p options₂ []).1) := by
  have hreuse₂ : reuseVolumesOption options₂ = .ok true := by
    rw [reuseVolumesOption_param_congr options₁ options₂ hpar, hreuse]
  have hdir₂ : getDirectoryName options₂ = .ok dirname := by
    rw [getDirectoryName_congr options₁ options₂ hpar hnm hnsp hreuse, hdir]
  have hglp : getLocalPath p options₂ = getLocalPath p options₁ := by
    rw [getLocalPath, getLocalPath, hdir, hdir₂]
  have hgne : itoa g ≠ "" := itoa_ne_empty g h0g
  have hparse : parseUint32 (itoa g) = some g.toNat := parseUint32_itoa g h0g hg32
  have hatoi : goAtoi (itoa g) = some g := by
    refine goAtoi_itoa g h0g (lt_of_lt_of_le hg32 (by norm_num))
  have htn : ((g.toNat : Nat) : Int) = g := Int.toNat_of_nonneg h0g
  have hcall1 : (Provision (traceOps o₁) p options₁ []).2 =
      .ok { name := options₁.pvName, server := p.dnsName,
            path := goJoin2 (goClean (replaceFirst p.source (p.dnsName ++ ":") "")) dirname,
            readOnly := false,
            mountOptions := match options₁.mountOptions with
              | some mo => mo
              | none => ["vers=4.1"],
            gidAnnotation := some g } := by
    simp only [Provision, hsel₁, getLocalPath, hdir, hreuse, volumeExists, traceOps, hstat₁,
      hga, createVolume, writeVolumeMetadata, hmar, halloc, hmk, hcm, hcg, getRemotePath]
    simp [hmk, hcm, hcg, hmar]
  have hval : validatePreexistingVolume options₂
      (some { GID := itoa g, PVCName := options₁.pvcName,
              PVCNamespace := options₁.pvcNamespace,
              StorageClassName := options₁.pvcClass })
      (goJoin2 p.mountpoint dirname) g.toNat = .ok () := by
    rw [validatePreexistingVolume, if_neg (by simp [hcls]), if_neg (by simp [hnm, hnsp]),
      if_pos hgne]
    simp only [gidAsUInt, hparse, Option.getD_some]
    rw [if_neg (by omega)]
  have hcall2 : Provision (traceOps o₂) p options₂ [] =
      ([.stat (goJoin2 p.mountpoint dirname),
        .readFile (getMetaDataPath (goJoin2 p.mountpoint dirname))],
       .ok { name := options₂.pvName, server := p.dnsName,
             path := goJoin2 (goClean (replaceFirst p.source (p.dnsName ++ ":") "")) dirname,
             readOnly := false, mountOptions := ["vers=4.1"],
             gidAnnotation := some g }) := by
    simp only [Provision, hsel₂, getLocalPath, hdir₂, hreuse₂, volumeExists, traceOps,
      hstat₂, readVolumeMetadata, hread₂, hum₂, getRemotePath, hmo₂]
    simp [hval, hgne, hatoi, htn]
  refine ⟨hglp, hcall1, hcall2, ?_, ?_, ?_⟩
  · intro q m
    rw [hcall2]
    simp
  · rw [hcall2]
    simp
  · intro q c m
    rw [hcall2]
    simp

/-- The second provisioning request for the same claim (a fresh PV
name, everything else unchanged). -/
def optsReuseEx2 : VolumeOptions := { optsReuseEx with pvName := "pv-2" }

/-- Oracle for the second call of the C8 witness: the directory and the
metadata produced by the first call are on disk. -/
def oC8b : Oracle :=
  { okOracle with
    statRes := fun _ => .found true 2000
    readFileRes := fun _ => .content "M"
    unmarshalFn := fun c => if c = "M" then some mdEx else none }

/-- C8 witness: the double-provision scenario at concrete inputs. -/
theorem reuse_provision_idempotent_witness :
    getLocalPath cfgEx optsReuseEx2 = getLocalPath cfgEx optsReuseEx ∧
    (Provision (traceOps okOracle) cfgEx optsReuseEx []).2 =
      .ok { name := "pv-1", server := cfgEx.dnsName,
            path := goJoin2 (goClean (replaceFirst cfgEx.source (cfgEx.dnsName ++ ":") ""))
              "claim-a-ns1",
            readOnly := false, mountOptions := ["vers=4.1"],
            gidAnnotation := some 2000 } ∧
    Provision (traceOps oC8b) cfgEx optsReuseEx2 [] =
      ([.stat (goJoin2 cfgEx.mountpoint "claim-a-ns1"),
        .readFile (getMetaDataPath (goJoin2 cfgEx.mountpoint "claim-a-ns1"))],
       .ok { name := "pv-2", server := cfgEx.dnsName,
             path := goJoin2 (goClean (replaceFirst cfgEx.source (cfgEx.dnsName ++ ":") ""))
               "claim-a-ns1",
             readOnly := false, mountOptions := ["vers=4.1"],
             gidAnnotation := some 2000 }) ∧
    (∀ q m, FSOp.mkdirAll q m ∉ (Provision (traceOps oC8b) cfgEx optsReuseEx2 []).1) ∧
    FSOp.allocateNext ∉ (Provision (traceOps oC8b) cfgEx optsReuseEx2 []).1 ∧
    (∀ q c m, FSOp.writeFile q c m ∉ (Provision (traceOps oC8b) cfgEx optsReuseEx2 []).1) :=
  reuse_provision_idempotent okOracle oC8b cfgEx optsReuseEx optsReuseEx2 "claim-a-ns1"
    (encodeMetadata mdEx) "M" 2000 rfl rfl rfl rfl rfl rfl rfl rfl rfl rfl
    (by norm_num) (by norm_num) rfl rfl rfl rfl rfl rfl rfl rfl rfl

/-- C10: with the reuse flag off, `Provision` performs no stat, no
metadata read, and no metadata write; and run against a target path
already holding a directory, directory creation succeeds, the
existing directory's permission bits and group owner are overwritten,
and its sidecar content is untouched. -/
theorem ephemeral_no_existence_check (o : Oracle) (p : EfsConfig)
    (options : VolumeOptions) (dirname : String) (g : Int)
    (umask parentGid nextGid perm0 gid0 : Nat) (sc0 : Option String)
    (hsel : options.hasSelector = false)
    (hreuse : reuseVolumesOption options = .ok false)
    (hdir : getDirectoryName options = .ok dirname)
    (hga : paramGidAllocate options.parameters = .ok true)
    (hmo : options.mountOptions = none)
    (halloc : o.allocateNextRes = .ok g)
    (hmk : o.mkdirRes (goJoin2 p.mountpoint dirname) (0o771 ||| modeSetgid) = .ok ())
    (hcm : o.chmodRes (goJoin2 p.mountpoint dirname) (0o771 ||| modeSetgid) = .ok ())
    (hcg : o.chgrpRes g (goJoin2 p.mountpoint dirname) = .ok ()) :
    Provision (traceOps o) p options [] =
      ([.allocateNext, .mkdirAll (goJoin2 p.mountpoint dirname) (0o771 ||| modeSetgid),
        .chmod (goJoin2 p.mountpoint dirname) (0o771 ||| modeSetgid),
        .chgrp g (goJoin2 p.mountpoint dirname)],
       .ok { name := options.pvName, server := p.dnsName,
             path := goJoin2 (goClean (replaceFirst p.source (p.dnsName ++ ":") "")) dirname,
             readOnly := false, mountOptions := ["vers=4.1"],
             gidAnnotation := some g }) ∧
    (∀ q, FSOp.stat q ∉ (Provision (traceOps o) p options []).1) ∧
    (∀ q, FSOp.readFile q ∉ (Provision (traceOps o) p options []).1) ∧
    (∀ q c m, FSOp.writeFile q c m ∉ (Provision (traceOps o) p options []).1) ∧
    Provision (pathStateOps (goJoin2 p.mountpoint dirname) umask parentGid nextGid) p options
        (.dir perm0 gid0 sc0) =
      (.dir (0o771 ||| modeSetgid) nextGid sc0,
       .ok { name := options.pvName, server := p.dnsName,
             path := goJoin2 (goClean (replaceFirst p.source (p.dnsName ++ ":") "")) dirname,
             readOnly := false, mountOptions := ["vers=4.1"],
             gidAnnotation := some (nextGid : Int) }) := by
  have htrace : Provision (traceOps o) p options [] =
      ([.allocateNext, .mkdirAll (goJoin2 p.mountpoint dirname) (0o771 ||| modeSetgid),
        .chmod (goJoin2 p.mountpoint dirname) (0o771 ||| modeSetgid),
        .chgrp g (goJoin2 p.mountpoint dirname)],
       .ok { name := options.pvName, server := p.dnsName,
             path := goJoin2 (goClean (replaceFirst p.source (p.dnsName ++ ":") "")) dirname,
             readOnly := false, mountOptions := ["vers=4.1"],
             gidAnnotation := some g }) := by
    simp only [Provision, hsel, getLocalPath, hdir, hreuse, traceOps, hga, createVolume,
      halloc, hmk, hcm, hcg, getRemotePath, hmo]
    simp [hmk, hcm, hcg]
  have hgn : ¬ ((nextGid : Int) < 0) := by omega
  refine ⟨htrace, ?_, ?_, ?_, ?_⟩
  · intro q
    rw [htrace]
    simp
  · intro q
    rw [htrace]
    simp
  · intro q c m
    rw [htrace]
    simp
  · simp only [Provision, hsel, getLocalPath, hdir, hreuse, pathStateOps, hga, createVolume,
      getRemotePath, hmo]
    simp [hgn]

/-- C10 witness: an ephemeral request over an existing directory with
stale bits, group 999 and a leftover sidecar. -/
theorem ephemeral_no_existence_check_witness :
    Provision (traceOps okOracle) cfgEx
      { optsReuseEx with parameters := [] } [] =
      ([.allocateNext, .mkdirAll (goJoin2 cfgEx.mountpoint "claim-a-pv-1") (0o771 ||| modeSetgid),
        .chmod (goJoin2 cfgEx.mountpoint "claim-a-pv-1") (0o771 ||| modeSetgid),
        .chgrp 2000 (goJoin2 cfgEx.mountpoint "claim-a-pv-1")],
       .ok { name := "pv-1", server := cfgEx.dnsName,
             path := goJoin2 (goClean (replaceFirst cfgEx.source (cfgEx.dnsName ++ ":") ""))
               "claim-a-pv-1",
             readOnly := false, mountOptions := ["vers=4.1"],
             gidAnnotation := some 2000 }) ∧
    (∀ q, FSOp.stat q ∉
      (Provision (traceOps okOracle) cfgEx { optsReuseEx with parameters := [] } []).1) ∧
    (∀ q, FSOp.readFile q ∉
      (Provision (traceOps okOracle) cfgEx { optsReuseEx with parameters := [] } []).1) ∧
    (∀ q c m, FSOp.writeFile q c m ∉
      (Provision (traceOps okOracle) cfgEx { optsReuseEx with parameters := [] } []).1) ∧
    Provision (pathStateOps (goJoin2 cfgEx.mountpoint "claim-a-pv-1") 0o022 0 1234) cfgEx
        { optsReuseEx with parameters := [] } (.dir 0o777 999 (some "stale")) =
      (.dir (0o771 ||| modeSetgid) 1234 (some "stale"),
       .ok { name := "pv-1", server := cfgEx.dnsName,
             path := goJoin2 (goClean (replaceFirst cfgEx.source (cfgEx.dnsName ++ ":") ""))
               "claim-a-pv-1",
             readOnly := false, mountOptions := ["vers=4.1"],
             gidAnnotation := some ((1234 : Nat) : Int) }) :=
  ephemeral_no_existence_check okOracle cfgEx { optsReuseEx with parameters := [] }
    "claim-a-pv-1" 2000 0o022 0 1234 0o777 999 (some "stale")
    rfl rfl rfl rfl rfl rfl rfl rfl rfl

end EfsProv
